import Mathlib

/-!
Verification of the `de_env` deserialization engine: a shallow embedding of
the crate's key/value adapters, scalar coercion, error model and record
assembly, together with theorems settling the specification's claims.

Sources embedded (file / symbol references are to the repository):
- `src/error.rs`: the `ErrorCode` taxonomy and the `From<ParseIntError>` /
  `From<ParseFloatError>` conversions.
- `src/de/value.rs`: the `Value` adapter (scalar coercion, booleans, enums,
  options, newtypes, unsupported shapes).
- `src/de/key.rs`: the `Key` adapter.
- `src/de/mod.rs`: the entry points `from_iter` / `from_iter_os` /
  `from_env_prefixed` and the top-level `EnvDeserializer` dispatch.
- The behavior of the `serde` collaborator where the engine delegates to it
  (string value deserializers, `MapDeserializer`, derived struct/enum
  visitors) is embedded from serde's documented/stable semantics, since the
  repository's observable behavior flows through those calls.

Machine integers are modeled as `Int` with explicit range bounds; strings
whose bytes may not be valid Unicode are modeled by the `OsStr` type below,
which records exactly what the code observes through `to_str`/`into_string`.
-/

set_option autoImplicit false

/-- Decidable equality for `Except` results, for concrete counterexample
checks. -/
instance exceptDecEq {e a : Type} [DecidableEq e] [DecidableEq a] :
    DecidableEq (Except e a) := fun x y =>
  match x, y with
  | .ok u, .ok v =>
    if h : u = v then .isTrue (by rw [h]) else .isFalse (by simp [h])
  | .error u, .error v =>
    if h : u = v then .isTrue (by rw [h]) else .isFalse (by simp [h])
  | .ok _, .error _ => .isFalse (by simp)
  | .error _, .ok _ => .isFalse (by simp)

/-- Model of `std::ffi::OsString` as used by the crate: the code only ever
asks whether the bytes are valid Unicode (`to_str` / `into_string`),
obtaining the decoded text on success and keeping the raw value for error
reporting on failure. `valid s` is a well-formed Unicode value decoding to
`s`; `invalid bytes` is a value whose bytes are not valid Unicode. -/
inductive OsStr where
  | valid (s : String)
  | invalid (bytes : List Nat)
deriving DecidableEq, Repr

/-- `OsStr::to_str`: `Some` of the decoded text iff the bytes are valid
Unicode. -/
def OsStr.to_str : OsStr → Option String
  | valid s => some s
  | invalid _ => none

/-- `OsString::into_string`: the decoded text, or `Err(self)` keeping the
original value when the bytes are not valid Unicode. -/
def OsStr.into_string : OsStr → Except OsStr String
  | valid s => .ok s
  | invalid b => .error (invalid b)

/-- Kinds of `std::num::ParseIntError` reachable through base-10
`FromStr` parsing (`core/src/num/mod.rs`). -/
inductive IntErrorKind where
  | Empty
  | InvalidDigit
  | PosOverflow
  | NegOverflow
deriving DecidableEq, Repr

/-- Kinds of `std::num::ParseFloatError` (`core/src/num/dec2flt/mod.rs`):
`Empty` for the empty string, `Invalid` for anything else rejected. -/
inductive FloatErrorKind where
  | Empty
  | Invalid
deriving DecidableEq, Repr

/-- `src/error.rs` `ErrorCode` (the `Error` newtype box around it is
transparent): the closed taxonomy of failure reasons. `Message` carries the
text produced through `serde::de::Error::custom`. -/
inductive Error where
  | Message (msg : String)
  | UnsupportedType (ty : String)
  | InvalidUnicode (raw : OsStr)
  | InvalidInteger (kind : IntErrorKind)
  | InvalidFloat (kind : FloatErrorKind)
  | InvalidBool (raw : OsStr)
deriving DecidableEq, Repr

/-- A primitive integer type: signedness and bit width. The crate's macro
`convert_into_string_and_parse!` instantiates the same code at
u8..u128 and i8..i128. -/
structure IntType where
  signed : Bool
  bits : Nat
deriving DecidableEq, Repr

/-- Smallest representable value of the type. -/
def IntType.minVal (t : IntType) : Int :=
  if t.signed then -((2 : Int) ^ (t.bits - 1)) else 0

/-- Largest representable value of the type. -/
def IntType.maxVal (t : IntType) : Int :=
  if t.signed then (2 : Int) ^ (t.bits - 1) - 1 else (2 : Int) ^ t.bits - 1

/-- The twelve numeric types named by the macro invocation in
`src/de/value.rs` (floats are handled separately by `dec2flt`). -/
def numericIntTypes : List IntType :=
  [⟨false, 8⟩, ⟨false, 16⟩, ⟨false, 32⟩, ⟨false, 64⟩, ⟨false, 128⟩,
   ⟨true, 8⟩, ⟨true, 16⟩, ⟨true, 32⟩, ⟨true, 64⟩, ⟨true, 128⟩]

/-- `char::to_digit(10)`: the value of an ASCII decimal digit. -/
def charToDigit10 (c : Char) : Option Nat :=
  if 48 ≤ c.toNat ∧ c.toNat ≤ 57 then some (c.toNat - 48) else none

/-- The digit-accumulation loop of `from_str_radix` (radix 10): positive
accumulation uses `checked_mul`/`checked_add`, negative accumulation
`checked_mul`/`checked_sub`; any out-of-range intermediate aborts with
`PosOverflow`/`NegOverflow`, any non-digit with `InvalidDigit`. -/
def mulAddDigits (t : IntType) (positive : Bool) :
    List Char → Int → Except IntErrorKind Int
  | [], acc => .ok acc
  | c :: rest, acc =>
    match charToDigit10 c with
    | none => .error .InvalidDigit
    | some d =>
      let m := acc * 10
      if m < t.minVal ∨ t.maxVal < m then
        .error (if positive then .PosOverflow else .NegOverflow)
      else
        let a := if positive then m + (d : Int) else m - (d : Int)
        if a < t.minVal ∨ t.maxVal < a then
          .error (if positive then .PosOverflow else .NegOverflow)
        else
          mulAddDigits t positive rest a

/-- Rust's `FromStr` for the integer primitives, i.e. `from_str_radix(src,
10)`: empty input is `Empty`; a lone sign is `InvalidDigit`; a leading `-`
selects negative accumulation only for signed types (for unsigned types the
`-` falls through into the digit loop and is rejected as `InvalidDigit`). -/
def from_str_radix_10 (t : IntType) (s : String) : Except IntErrorKind Int :=
  match s.data with
  | [] => .error .Empty
  | c :: rest =>
    if c = '+' then
      if rest.isEmpty then .error .InvalidDigit else mulAddDigits t true rest 0
    else if c = '-' then
      if rest.isEmpty then .error .InvalidDigit
      else if t.signed then mulAddDigits t false rest 0
      else mulAddDigits t true (c :: rest) 0
    else
      mulAddDigits t true (c :: rest) 0

/-- The semantic content of a successfully parsed float, before IEEE
rounding: `finite negative m e` denotes the exact decimal `±m · 10^e`
extracted by `dec2flt`'s grammar, and `inf`/`nan` the special values of
`parse_inf_nan`. Both `f32` and `f64` run the identical grammar and then
round; rounding is a function of this datum, so the claims about parse
success, failure kinds and value provenance are stated over it. -/
inductive FloatVal where
  | finite (negative : Bool) (mantissa : Nat) (exp10 : Int)
  | inf (negative : Bool)
  | nan (negative : Bool)
deriving DecidableEq, Repr

/-- Longest leading run of ASCII decimal digits, with the rest. -/
def takeDigits : List Char → List Nat × List Char
  | [] => ([], [])
  | c :: rest =>
    match charToDigit10 c with
    | some d =>
      let (ds, r) := takeDigits rest
      (d :: ds, r)
    | none => ([], c :: rest)

/-- `dec2flt`'s `parse_scientific`: optional sign, then at least one digit;
the whole remainder must be digits (trailing junk makes the number parse
fail). The Rust code clamps the accumulated exponent once it is huge; the
clamp only matters past the rounding step, which this model keeps exact. -/
def parseScientific (cs : List Char) : Option Int :=
  let (negExp, cs1) :=
    match cs with
    | '-' :: t => (true, t)
    | '+' :: t => (false, t)
    | t => (false, t)
  let (ds, r) := takeDigits cs1
  if ds.isEmpty ∨ ¬ r.isEmpty then none
  else
    let v : Int := ds.foldl (fun a d => a * 10 + (d : Int)) 0
    some (if negExp then -v else v)

/-- `dec2flt`'s `parse_number`: integer digits, an optional `.` with
fraction digits, at least one digit overall, an optional `e`/`E` exponent,
and full consumption of the input. Returns the decimal mantissa and the
power-of-ten exponent. -/
def parseNumber (cs : List Char) : Option (Nat × Int) :=
  let (ints, cs1) := takeDigits cs
  let (fracs, cs2) :=
    match cs1 with
    | '.' :: t => takeDigits t
    | _ => ([], cs1)
  if ints.isEmpty ∧ fracs.isEmpty then none
  else
    let mantissa := (ints ++ fracs).foldl (fun a d => a * 10 + d) 0
    let e0 : Int := -(fracs.length : Int)
    match cs2 with
    | [] => some (mantissa, e0)
    | 'e' :: t => (parseScientific t).map (fun ex => (mantissa, e0 + ex))
    | 'E' :: t => (parseScientific t).map (fun ex => (mantissa, e0 + ex))
    | _ => none

/-- ASCII lowercasing of one character (identity beyond A–Z). -/
def asciiLower (c : Char) : Char :=
  if 'A' ≤ c ∧ c ≤ 'Z' then Char.ofNat (c.toNat + 32) else c

/-- `dec2flt`'s `parse_inf_nan`: `inf`, `infinity` and `nan`, compared
ASCII-case-insensitively, with the already-consumed sign applied. -/
def parseInfNan (cs : List Char) (negative : Bool) : Option FloatVal :=
  let l := cs.map asciiLower
  if l = ['i', 'n', 'f'] ∨ l = ['i', 'n', 'f', 'i', 'n', 'i', 't', 'y'] then
    some (.inf negative)
  else if l = ['n', 'a', 'n'] then
    some (.nan negative)
  else
    none

/-- Rust's `FromStr` for `f32`/`f64` (`dec2flt`): empty input is `Empty`;
an optional sign, then either a decimal number or an infinity/NaN keyword;
everything else is `Invalid`. -/
def dec2flt (s : String) : Except FloatErrorKind FloatVal :=
  match s.data with
  | [] => .error .Empty
  | c :: tail =>
    let negative := c = '-'
    let rest := if c = '-' ∨ c = '+' then tail else c :: tail
    if rest.isEmpty then .error .Invalid
    else
      match parseNumber rest with
      | some me => .ok (.finite negative me.1 me.2)
      | none =>
        match parseInfNan rest negative with
        | some v => .ok v
        | none => .error .Invalid

/-- The `Value` adapter of `src/de/value.rs` wraps one raw `OsString`. -/
abbrev Value := OsStr

/-- The numeric arms generated by `convert_into_string_and_parse!`:
`self.0.into_string().map_err(Error::invalid_unicode)?.parse::<$ty>()?`,
with `From<ParseIntError> for Error` injecting `InvalidInteger`. -/
def Value.deserialize_int (t : IntType) (v : Value) : Except Error Int :=
  match v.into_string with
  | .error raw => .error (.InvalidUnicode raw)
  | .ok s =>
    match from_str_radix_10 t s with
    | .error e => .error (.InvalidInteger e)
    | .ok n => .ok n

/-- The float arms of the same macro (`deserialize_f32`/`deserialize_f64`):
identical pipeline with `From<ParseFloatError> for Error` injecting
`InvalidFloat`. -/
def Value.deserialize_float (v : Value) : Except Error FloatVal :=
  match v.into_string with
  | .error raw => .error (.InvalidUnicode raw)
  | .ok s =>
    match dec2flt s with
    | .error e => .error (.InvalidFloat e)
    | .ok x => .ok x

/-- The six truthy tokens of the `truthy-falsy` feature
(`src/de/value.rs` `deserialize_bool`). -/
def truthyTokens : List String := ["true", "t", "yes", "y", "on", "1"]

/-- The six falsy tokens of the `truthy-falsy` feature. -/
def falsyTokens : List String := ["false", "f", "no", "n", "off", "0"]

/-- `str::to_lowercase` as it acts on the inputs the boolean matcher can
accept: per-character ASCII lowercasing. (The only Unicode-specific
lowercasings that land in ASCII, KELVIN SIGN to k and ANGSTROM SIGN to a
ring, produce letters that occur in no recognized boolean token, so they
cannot change whether a string matches the token sets below.) -/
def to_lowercase (s : String) : String :=
  ⟨s.data.map asciiLower⟩

/-- `Value::deserialize_bool`: lowercase the decoded text (when the bytes
are valid Unicode) and match it against the token sets; every non-matching
case, including non-Unicode input, falls into the catch-all arm and raises
`InvalidBool` carrying the original, non-lowercased raw value. The
`truthyFalsy` flag models the compile-time `truthy-falsy` feature. -/
def Value.deserialize_bool (truthyFalsy : Bool) (v : Value) : Except Error Bool :=
  let lowercaseInput := (OsStr.to_str v).map to_lowercase
  match truthyFalsy, lowercaseInput with
  | true, some s =>
    if truthyTokens.contains s then .ok true
    else if falsyTokens.contains s then .ok false
    else .error (.InvalidBool v)
  | true, none => .error (.InvalidBool v)
  | false, some s =>
    if s = "true" then .ok true
    else if s = "false" then .ok false
    else .error (.InvalidBool v)
  | false, none => .error (.InvalidBool v)

/-- `Value::deserialize_option`: `visitor.visit_some(self)` — the visitor's
present-branch continuation is always invoked, on the adapter itself. -/
def Value.deserialize_option {α : Type} (visit_some : Value → Except Error α)
    (v : Value) : Except Error α :=
  visit_some v

/-- `Value::deserialize_newtype_struct`: `visitor.visit_newtype_struct(self)`
— the wrapper's continuation receives the adapter itself. -/
def Value.deserialize_newtype_struct {α : Type}
    (visit_newtype : Value → Except Error α) (v : Value) : Except Error α :=
  visit_newtype v

/-- `Option::<u8>::deserialize` against a `Value`: serde's option visitor
maps the present branch through the inner `u8` deserializer and `Some`. -/
def deserializeOptionU8 (v : Value) : Except Error (Option Int) :=
  Value.deserialize_option
    (fun inner => (Value.deserialize_int ⟨false, 8⟩ inner).map Option.some) v

/-- `Value::deserialize_any`: decode the bytes (`InvalidUnicode` on
failure) and hand the text to serde's string deserializer, which calls
`visit_string`. With the `IgnoredAny` visitor (the `ignored_any` request is
forwarded to `any` by `forward_to_deserialize_any!`) every decoded string
is accepted. -/
def Value.deserialize_ignored_any (v : Value) : Except Error Unit :=
  match v.into_string with
  | .error raw => .error (.InvalidUnicode raw)
  | .ok _ => .ok ()

/-- `String::deserialize` against a `Value`: the `string` request is
forwarded to `deserialize_any`, which decodes and calls `visit_string`
with the decoded text. -/
def Value.deserialize_string (v : Value) : Except Error String :=
  match v.into_string with
  | .error raw => .error (.InvalidUnicode raw)
  | .ok s => .ok s

/-- The four-variant enum of the crate's own test
(`src/de/value.rs` tests): two unit variants and two data variants, with
`rename_all = "SCREAMING_SNAKE_CASE"` variant names. -/
inductive Switch where
  | On
  | Off
  | NewTypeVariant (b : Bool)
  | StructVariant (field : Bool)
deriving DecidableEq, Repr

/-- A two-variant unit-only enum `{On, Off}` with screaming-snake-case
names, as in the specification's example. -/
inductive Switch2 where
  | On
  | Off
deriving DecidableEq, Repr

/-- The derived enum visitor for `Switch` applied to a decoded string, as
run by serde's `StrDeserializer::deserialize_enum`: the string is resolved
against the declared variant names; a unit variant is produced directly;
a data variant resolved by name fails in serde's `UnitOnly` variant access
with a custom `invalid type` message; an unknown name fails with serde's
`unknown_variant` message. Both failures arrive through
`serde::de::Error::custom`, i.e. as `Error::Message`. -/
def switchVisitEnum (s : String) : Except Error Switch :=
  if s = "ON" then .ok .On
  else if s = "OFF" then .ok .Off
  else if s = "NEW_TYPE_VARIANT" then
    .error (.Message "invalid type: unit variant, expected newtype variant")
  else if s = "STRUCT_VARIANT" then
    .error (.Message "invalid type: unit variant, expected struct variant")
  else
    .error (.Message ("unknown variant `" ++ s ++
      "`, expected one of `ON`, `OFF`, `NEW_TYPE_VARIANT`, `STRUCT_VARIANT`"))

/-- The derived enum visitor for `Switch2` applied to a decoded string. -/
def switch2VisitEnum (s : String) : Except Error Switch2 :=
  if s = "ON" then .ok .On
  else if s = "OFF" then .ok .Off
  else .error (.Message ("unknown variant `" ++ s ++ "`, expected `ON` or `OFF`"))

/-- `Value::deserialize_enum` for the target `Switch`: decode the bytes
(`InvalidUnicode` on failure) and delegate the decoded text to serde's
string enum deserializer. -/
def Value.deserialize_enum_Switch (v : Value) : Except Error Switch :=
  match v.into_string with
  | .error raw => .error (.InvalidUnicode raw)
  | .ok s => switchVisitEnum s

/-- `Value::deserialize_enum` for the target `Switch2`. -/
def Value.deserialize_enum_Switch2 (v : Value) : Except Error Switch2 :=
  match v.into_string with
  | .error raw => .error (.InvalidUnicode raw)
  | .ok s => switch2VisitEnum s

/-- The `Key` adapter of `src/de/key.rs` wraps one raw name. -/
abbrev Key := OsStr

/-- `Key::deserialize_str`: `visit_str` on the decoded text, or
`InvalidUnicode` keeping the raw name. -/
def Key.deserialize_str (k : Key) : Except Error String :=
  match k.to_str with
  | some s => .ok s
  | none => .error (.InvalidUnicode k)

/-- `Key::deserialize_string`: `visit_string` on the owned decoded text, or
`InvalidUnicode` keeping the raw name. -/
def Key.deserialize_string (k : Key) : Except Error String :=
  match k.into_string with
  | .error raw => .error (.InvalidUnicode raw)
  | .ok s => .ok s

/-- `Key::deserialize_identifier`: delegates to `deserialize_str`. -/
def Key.deserialize_identifier (k : Key) : Except Error String :=
  Key.deserialize_str k

/-- The full set of shape requests a serde `Deserializer` can receive: one
constructor per `deserialize_*` method. (`struct'` and `enum'` stand for the
`struct` and `enum` requests, which are Lean keywords.) -/
inductive SerdeShape where
  | any
  | bool
  | i8
  | i16
  | i32
  | i64
  | i128
  | u8
  | u16
  | u32
  | u64
  | u128
  | f32
  | f64
  | char
  | str
  | string
  | bytes
  | byte_buf
  | option
  | unit
  | unit_struct
  | newtype_struct
  | seq
  | tuple
  | tuple_struct
  | map
  | struct'
  | enum'
  | identifier
  | ignored_any
deriving DecidableEq, Repr

/-- The name `unsupported_types!`'s `stringify!($ty)` produces for each
shape (`src/de/util.rs`), as carried by `Error::unsupported_type` in the
`EnvDeserializer` and `Key` rejection arms. -/
def shapeName : SerdeShape → String
  | .any => "any"
  | .bool => "bool"
  | .i8 => "i8"
  | .i16 => "i16"
  | .i32 => "i32"
  | .i64 => "i64"
  | .i128 => "i128"
  | .u8 => "u8"
  | .u16 => "u16"
  | .u32 => "u32"
  | .u64 => "u64"
  | .u128 => "u128"
  | .f32 => "f32"
  | .f64 => "f64"
  | .char => "char"
  | .str => "str"
  | .string => "string"
  | .bytes => "bytes"
  | .byte_buf => "byte_buf"
  | .option => "option"
  | .unit => "unit"
  | .unit_struct => "unit_struct"
  | .newtype_struct => "newtype_struct"
  | .seq => "seq"
  | .tuple => "tuple"
  | .tuple_struct => "tuple_struct"
  | .map => "map"
  | .struct' => "struct"
  | .enum' => "enum"
  | .identifier => "identifier"
  | .ignored_any => "ignored_any"

/-- Outcome of a top-level shape request on `&mut EnvDeserializer`
(`src/de/mod.rs`): either the request reaches `deserialize_any`, which
interprets the pair iterator as a mapping (`visitor.visit_map`), or it is
rejected with `UnsupportedType`. -/
inductive EnvOutcome where
  | visitMap
  | unsupported (ty : String)
deriving DecidableEq, Repr

/-- The shapes `forward_to_deserialize_any!` forwards at the top level,
plus `any` itself. -/
def envForwarded : List SerdeShape :=
  [.any, .newtype_struct, .map, .struct', .enum', .ignored_any]

/-- The top-level dispatch of `&mut EnvDeserializer`: `newtype_struct`,
`map`, `struct`, `enum` and `ignored_any` are forwarded to
`deserialize_any` (mapping interpretation); every shape listed in its
`unsupported_types!` invocation is rejected by name. -/
def envDeserializeShape : SerdeShape → EnvOutcome
  | .any => .visitMap
  | .newtype_struct => .visitMap
  | .map => .visitMap
  | .struct' => .visitMap
  | .enum' => .visitMap
  | .ignored_any => .visitMap
  | s => .unsupported (shapeName s)

/-- Outcome of a shape request on a `Key` (`src/de/key.rs`): borrowed text
(`visit_str`), owned text (`visit_string`), handing the adapter itself to a
newtype wrapper (`visit_newtype_struct(self)`), or rejection by name. -/
inductive KeyOutcome where
  | visitStr
  | visitString
  | visitNewtypeSelf
  | unsupported (ty : String)
deriving DecidableEq, Repr

/-- The `Key` dispatch: `str` and `identifier` answer with borrowed text
(`deserialize_identifier` delegates to `deserialize_str`), `string` with
owned text, `newtype_struct` hands the adapter through, and every shape in
its `unsupported_types!` invocation is rejected by name. -/
def keyDeserializeShape : SerdeShape → KeyOutcome
  | .str => .visitStr
  | .identifier => .visitStr
  | .string => .visitString
  | .newtype_struct => .visitNewtypeSelf
  | s => .unsupported (shapeName s)

/-- One step of serde's derived struct visitor for the crate's test record
`Test { a: String, b: u8 }` running against `MapDeserializer` over the pair
list (`from_iter_os` in `src/de/mod.rs`): each pair's name is read through
the `Key` adapter as an identifier, known fields deserialize their value
(duplicates are rejected with serde's `duplicate field` message), unknown
fields drain their value through `ignored_any`, and at exhaustion missing
fields raise serde's `missing field` message. -/
def testVisitMap :
    List (Key × Value) → Option String → Option Int → Except Error (String × Int)
  | [], a?, b? =>
    match a? with
    | none => .error (.Message "missing field `a`")
    | some a =>
      match b? with
      | none => .error (.Message "missing field `b`")
      | some b => .ok (a, b)
  | (k, v) :: rest, a?, b? =>
    match Key.deserialize_identifier k with
    | .error e => .error e
    | .ok fieldName =>
      if fieldName = "a" then
        if a?.isSome then .error (.Message "duplicate field `a`")
        else
          match Value.deserialize_string v with
          | .error e => .error e
          | .ok s => testVisitMap rest (some s) b?
      else if fieldName = "b" then
        if b?.isSome then .error (.Message "duplicate field `b`")
        else
          match Value.deserialize_int ⟨false, 8⟩ v with
          | .error e => .error e
          | .ok n => testVisitMap rest a? (some n)
      else
        match Value.deserialize_ignored_any v with
        | .error e => .error e
        | .ok _ => testVisitMap rest a? b?

/-- `from_iter_os` for the target `Test { a: String, b: u8 }`: the derived
`deserialize_struct` request is forwarded to `deserialize_any`, which runs
the struct visitor over the mapping. -/
def from_iter_test (pairs : List (Key × Value)) : Except Error (String × Int) :=
  testVisitMap pairs none none

/-- Serde's derived struct visitor for the test record
`Test { a: Option<u8>, b: Option<u8> }` (`src/tests.rs`): same protocol as
`testVisitMap`; at exhaustion a missing `Option` field resolves to `None`
(serde's `missing_field` helper answers an option request with
`visit_none`). -/
def optionTestVisitMap :
    List (Key × Value) → Option (Option Int) → Option (Option Int) →
    Except Error (Option Int × Option Int)
  | [], a?, b? => .ok (a?.getD none, b?.getD none)
  | (k, v) :: rest, a?, b? =>
    match Key.deserialize_identifier k with
    | .error e => .error e
    | .ok fieldName =>
      if fieldName = "a" then
        if a?.isSome then .error (.Message "duplicate field `a`")
        else
          match deserializeOptionU8 v with
          | .error e => .error e
          | .ok o => optionTestVisitMap rest (some o) b?
      else if fieldName = "b" then
        if b?.isSome then .error (.Message "duplicate field `b`")
        else
          match deserializeOptionU8 v with
          | .error e => .error e
          | .ok o => optionTestVisitMap rest a? (some o)
      else
        match Value.deserialize_ignored_any v with
        | .error e => .error e
        | .ok _ => optionTestVisitMap rest a? b?

/-- `from_iter` for the target `Test { a: Option<u8>, b: Option<u8> }`. -/
def from_iter_optionTest (pairs : List (Key × Value)) :
    Except Error (Option Int × Option Int) :=
  optionTestVisitMap pairs none none

/-- `str::strip_prefix` on character lists: the suffix after the prefix,
when the input starts with it. -/
def stripPrefixChars : List Char → List Char → Option (List Char)
  | [], s => some s
  | _ :: _, [] => none
  | p :: ps, c :: cs => if p = c then stripPrefixChars ps cs else none

/-- The per-pair step of `from_env_prefixed`'s `filter_map`
(`src/de/mod.rs`): a name that is not valid Unicode is dropped; a valid
name is kept, with the prefix stripped, exactly when it starts with the
prefix. -/
def prefFilterOne (pre : String) (pair : OsStr × OsStr) : Option (OsStr × OsStr) :=
  match OsStr.to_str pair.1 with
  | some name =>
    match stripPrefixChars pre.data name.data with
    | some stripped => some (OsStr.valid ⟨stripped⟩, pair.2)
    | none => none
  | none => none

/-- The pair filtering of `from_env_prefixed`, before the pairs reach the
engine. -/
def from_env_filter (pre : String) (env : List (OsStr × OsStr)) :
    List (OsStr × OsStr) :=
  env.filterMap (prefFilterOne pre)

/-- `from_env_prefixed` for the target `Test { a: String, b: u8 }`: filter
and strip the environment pairs, then run the engine on the result. -/
def from_env_prefixed_Test (pre : String) (env : List (OsStr × OsStr)) :
    Except Error (String × Int) :=
  from_iter_test (from_env_filter pre env)

/-- The environment of the specification's prefix-filtering example:
`a=wrong`, `b=wrong`, `prefix_a=lorem ipsum`, `prefix_b=128`. -/
def envExample : List (OsStr × OsStr) :=
  [(OsStr.valid "a", OsStr.valid "wrong"),
   (OsStr.valid "b", OsStr.valid "wrong"),
   (OsStr.valid "prefix_a", OsStr.valid "lorem ipsum"),
   (OsStr.valid "prefix_b", OsStr.valid "128")]

/-- Whether a deserialization result failed with `UnsupportedType`. -/
def resultIsUnsupportedType {α : Type} : Except Error α → Bool
  | .error (.UnsupportedType _) => true
  | _ => false

/-- Whether an optional-field extraction produced a successful `None`. -/
def isOkNone : Except Error (Option Int) → Bool
  | .ok none => true
  | _ => false

/-- The two boolean token lists are disjoint: a lowercased input in the
falsy list is not in the truthy list. -/
theorem falsy_not_truthy {l : String} (h : falsyTokens.contains l = true) :
    truthyTokens.contains l = false := by
  have h' : l ∈ falsyTokens := List.mem_of_elem_eq_true h
  fin_cases h' <;> decide

/-- C1: for every supported primitive numeric type (u8..u128, i8..i128,
f32, f64) and every value: non-Unicode bytes fail with `InvalidUnicode`;
otherwise the decoded text is parsed by the type's standard `FromStr` rule,
a parse failure becomes `InvalidInteger`/`InvalidFloat` carrying the
underlying diagnostic, and a parse success yields exactly the parsed
value. -/
theorem C1_numeric_pipeline :
    (∀ t ∈ numericIntTypes, ∀ b : List Nat,
        Value.deserialize_int t (OsStr.invalid b)
          = .error (.InvalidUnicode (OsStr.invalid b)))
    ∧ (∀ t ∈ numericIntTypes, ∀ (s : String) (e : IntErrorKind),
        from_str_radix_10 t s = .error e →
        Value.deserialize_int t (OsStr.valid s) = .error (.InvalidInteger e))
    ∧ (∀ t ∈ numericIntTypes, ∀ (s : String) (n : Int),
        from_str_radix_10 t s = .ok n →
        Value.deserialize_int t (OsStr.valid s) = .ok n)
    ∧ (∀ b : List Nat,
        Value.deserialize_float (OsStr.invalid b)
          = .error (.InvalidUnicode (OsStr.invalid b)))
    ∧ (∀ (s : String) (e : FloatErrorKind), dec2flt s = .error e →
        Value.deserialize_float (OsStr.valid s) = .error (.InvalidFloat e))
    ∧ (∀ (s : String) (x : FloatVal), dec2flt s = .ok x →
        Value.deserialize_float (OsStr.valid s) = .ok x) := by
  refine ⟨fun t _ b => rfl, fun t _ s e h => ?_, fun t _ s n h => ?_,
    fun b => rfl, fun s e h => ?_, fun s x h => ?_⟩ <;>
    simp [Value.deserialize_int, Value.deserialize_float, OsStr.into_string, h]

/-- C1 witness: the pipeline evaluated at concrete inputs — an i8 overflow,
a u8 success, a float parse failure and a float parse success. -/
theorem C1_numeric_pipeline_witness :
    Value.deserialize_int ⟨true, 8⟩ (OsStr.valid "-129")
      = .error (.InvalidInteger .NegOverflow)
    ∧ Value.deserialize_int ⟨false, 8⟩ (OsStr.valid "128") = .ok 128
    ∧ Value.deserialize_float (OsStr.valid "abc") = .error (.InvalidFloat .Invalid)
    ∧ Value.deserialize_float (OsStr.valid "1.5e2") = .ok (.finite false 15 1) :=
  ⟨C1_numeric_pipeline.2.1 ⟨true, 8⟩ (by decide) "-129" .NegOverflow (by rfl),
   C1_numeric_pipeline.2.2.1 ⟨false, 8⟩ (by decide) "128" 128 (by rfl),
   C1_numeric_pipeline.2.2.2.2.1 "abc" .Invalid (by rfl),
   C1_numeric_pipeline.2.2.2.2.2 "1.5e2" (.finite false 15 1) (by rfl)⟩

/-- C2: with the truthy-falsy option enabled, any casing of a truthy token
yields `true`, any casing of a falsy token yields `false`, and every other
value — including non-Unicode bytes — yields `InvalidBool` carrying the
original, non-lowercased raw value; with the option disabled only casings
of `true`/`false` succeed and everything else yields `InvalidBool`. -/
theorem C2_bool_truthy_falsy :
    (∀ s : String, truthyTokens.contains (to_lowercase s) = true →
        Value.deserialize_bool true (OsStr.valid s) = .ok true)
    ∧ (∀ s : String, falsyTokens.contains (to_lowercase s) = true →
        Value.deserialize_bool true (OsStr.valid s) = .ok false)
    ∧ (∀ s : String, truthyTokens.contains (to_lowercase s) = false →
        falsyTokens.contains (to_lowercase s) = false →
        Value.deserialize_bool true (OsStr.valid s)
          = .error (.InvalidBool (OsStr.valid s)))
    ∧ (∀ b : List Nat, Value.deserialize_bool true (OsStr.invalid b)
          = .error (.InvalidBool (OsStr.invalid b)))
    ∧ (∀ s : String, to_lowercase s = "true" →
        Value.deserialize_bool false (OsStr.valid s) = .ok true)
    ∧ (∀ s : String, to_lowercase s = "false" →
        Value.deserialize_bool false (OsStr.valid s) = .ok false)
    ∧ (∀ s : String, to_lowercase s ≠ "true" → to_lowercase s ≠ "false" →
        Value.deserialize_bool false (OsStr.valid s)
          = .error (.InvalidBool (OsStr.valid s)))
    ∧ (∀ b : List Nat, Value.deserialize_bool false (OsStr.invalid b)
          = .error (.InvalidBool (OsStr.invalid b))) := by
  refine ⟨fun s h => ?_, fun s h => ?_, fun s h1 h2 => ?_, fun b => rfl,
    fun s h => ?_, fun s h => ?_, fun s h1 h2 => ?_, fun b => rfl⟩
  · have h' : to_lowercase s ∈ truthyTokens := by simpa using h
    simp [Value.deserialize_bool, OsStr.to_str, h']
  · have h' : to_lowercase s ∈ falsyTokens := by simpa using h
    have h'' : to_lowercase s ∉ truthyTokens := by simpa using falsy_not_truthy h
    simp [Value.deserialize_bool, OsStr.to_str, h', h'']
  · have h1' : to_lowercase s ∉ truthyTokens := by simpa using h1
    have h2' : to_lowercase s ∉ falsyTokens := by simpa using h2
    simp [Value.deserialize_bool, OsStr.to_str, h1', h2']
  · simp [Value.deserialize_bool, OsStr.to_str, h]
  · simp [Value.deserialize_bool, OsStr.to_str, h]
  · simp [Value.deserialize_bool, OsStr.to_str, h1, h2]

/-- C2 witness: boolean extraction at concrete casings of the tokens and at
concrete rejected values, with the option on and off. -/
theorem C2_bool_truthy_falsy_witness :
    Value.deserialize_bool true (OsStr.valid "YES") = .ok true
    ∧ Value.deserialize_bool true (OsStr.valid "Off") = .ok false
    ∧ Value.deserialize_bool true (OsStr.valid "2")
        = .error (.InvalidBool (OsStr.valid "2"))
    ∧ Value.deserialize_bool false (OsStr.valid "TrUe") = .ok true
    ∧ Value.deserialize_bool false (OsStr.valid "yes")
        = .error (.InvalidBool (OsStr.valid "yes")) :=
  ⟨C2_bool_truthy_falsy.1 "YES" (by rfl),
   C2_bool_truthy_falsy.2.1 "Off" (by rfl),
   C2_bool_truthy_falsy.2.2.1 "2" (by rfl) (by rfl),
   C2_bool_truthy_falsy.2.2.2.2.1 "TrUe" (by rfl),
   C2_bool_truthy_falsy.2.2.2.2.2.2.1 "yes" (by decide) (by decide)⟩

/-- C3: optional extraction always takes the present branch with the value
adapter itself as inner source, so no value content is ever mapped to
`None`; absence arises only from the key being missing, as in the concrete
record with fields `a: Option<u8>`, `b: Option<u8>` converted from the
single pair `("a","12")`. -/
theorem C3_option_always_present :
    (∀ (α : Type) (visit_some : Value → Except Error α) (v : Value),
        Value.deserialize_option visit_some v = visit_some v)
    ∧ (∀ v : Value,
        deserializeOptionU8 v
          = (Value.deserialize_int ⟨false, 8⟩ v).map Option.some)
    ∧ (∀ v : Value, isOkNone (deserializeOptionU8 v) = false)
    ∧ from_iter_optionTest [(OsStr.valid "a", OsStr.valid "12")]
        = .ok (some 12, none) := by
  refine ⟨fun α vs v => rfl, fun v => rfl, fun v => ?_, by rfl⟩
  cases h : Value.deserialize_int ⟨false, 8⟩ v with
  | error e => simp [deserializeOptionU8, Value.deserialize_option, isOkNone, h, Except.map]
  | ok n => simp [deserializeOptionU8, Value.deserialize_option, isOkNone, h, Except.map]

/-- C4 counterexample: boolean extraction from non-Unicode bytes fails with
`InvalidBool`, not `InvalidUnicode`, so the claim that every text-reading
path fails with `InvalidUnicode` and no other kind is false at this
input. -/
theorem C4_counterexample :
    Value.deserialize_bool true (OsStr.invalid [255])
      = .error (.InvalidBool (OsStr.invalid [255]))
    ∧ Value.deserialize_bool true (OsStr.invalid [255])
        ≠ .error (.InvalidUnicode (OsStr.invalid [255]))
    ∧ Value.deserialize_bool false (OsStr.invalid [255])
        ≠ .error (.InvalidUnicode (OsStr.invalid [255])) :=
  ⟨rfl, by decide, by decide⟩

/-- C4 (amended): every extraction path that interprets a key or value as
text fails with `InvalidUnicode` on non-Unicode bytes — except boolean
extraction, which fails with `InvalidBool` carrying the raw bytes. -/
theorem C4_invalid_unicode_paths :
    (∀ b : List Nat, Key.deserialize_str (OsStr.invalid b)
        = .error (.InvalidUnicode (OsStr.invalid b)))
    ∧ (∀ b : List Nat, Key.deserialize_string (OsStr.invalid b)
        = .error (.InvalidUnicode (OsStr.invalid b)))
    ∧ (∀ b : List Nat, Key.deserialize_identifier (OsStr.invalid b)
        = .error (.InvalidUnicode (OsStr.invalid b)))
    ∧ (∀ (t : IntType) (b : List Nat), Value.deserialize_int t (OsStr.invalid b)
        = .error (.InvalidUnicode (OsStr.invalid b)))
    ∧ (∀ b : List Nat, Value.deserialize_float (OsStr.invalid b)
        = .error (.InvalidUnicode (OsStr.invalid b)))
    ∧ (∀ b : List Nat, Value.deserialize_string (OsStr.invalid b)
        = .error (.InvalidUnicode (OsStr.invalid b)))
    ∧ (∀ b : List Nat, Value.deserialize_ignored_any (OsStr.invalid b)
        = .error (.InvalidUnicode (OsStr.invalid b)))
    ∧ (∀ b : List Nat, Value.deserialize_enum_Switch (OsStr.invalid b)
        = .error (.InvalidUnicode (OsStr.invalid b)))
    ∧ (∀ b : List Nat, Value.deserialize_enum_Switch2 (OsStr.invalid b)
        = .error (.InvalidUnicode (OsStr.invalid b)))
    ∧ (∀ (tf : Bool) (b : List Nat), Value.deserialize_bool tf (OsStr.invalid b)
        = .error (.InvalidBool (OsStr.invalid b))) :=
  ⟨fun b => rfl, fun b => rfl, fun b => rfl, fun t b => rfl, fun b => rfl,
   fun b => rfl, fun b => rfl, fun b => rfl, fun b => rfl,
   fun tf b => by cases tf <;> rfl⟩

/-- C5 counterexample: a top-level `newtype_struct` request is forwarded to
the mapping interpretation instead of failing with `UnsupportedType`, and
so is `ignored_any` — so the top level does not support exactly the
record/map/unit-enum shapes. -/
theorem C5_counterexample :
    envDeserializeShape SerdeShape.newtype_struct = EnvOutcome.visitMap
    ∧ envDeserializeShape SerdeShape.newtype_struct
        ≠ EnvOutcome.unsupported "newtype_struct"
    ∧ envDeserializeShape SerdeShape.ignored_any = EnvOutcome.visitMap :=
  ⟨rfl, by decide, rfl⟩

/-- C5 (amended): the top-level dispatch forwards exactly `any`,
`newtype_struct`, `map`, `struct`, `enum` and `ignored_any` to the mapping
interpretation; every other shape request — every scalar, `char`,
`str`/`string`, `bytes`/`byte_buf`, `option`, `unit`, `unit_struct`,
`seq`, `tuple`, `tuple_struct` and `identifier` — fails with
`UnsupportedType` naming the requested shape. -/
theorem C5_top_level_dispatch :
    ∀ s : SerdeShape,
      envDeserializeShape s =
        if envForwarded.contains s then EnvOutcome.visitMap
        else EnvOutcome.unsupported (shapeName s) := by
  intro s; cases s <;> rfl

/-- C6 counterexample: requesting the data-carrying variant
`NEW_TYPE_VARIANT` by name fails with a custom `Message` (serde's
invalid-type diagnostic from its unit-only variant access), not with
`UnsupportedType` as the claim states. -/
theorem C6_counterexample :
    Value.deserialize_enum_Switch (OsStr.valid "NEW_TYPE_VARIANT")
      = .error (.Message "invalid type: unit variant, expected newtype variant")
    ∧ resultIsUnsupportedType
        (Value.deserialize_enum_Switch (OsStr.valid "NEW_TYPE_VARIANT")) = false :=
  ⟨rfl, rfl⟩

/-- C6 (amended): unit-enum extraction decodes the value to text and
resolves it against the declared variant names: for the unit enum
`{On, Off}` value `"ON"` yields `On` and `"GIBBERISH"` fails (with serde's
unknown-variant message); requesting a variant declared with tuple or
struct data by name fails, but with serde's custom invalid-type `Message`,
not with `UnsupportedType`. -/
theorem C6_enum_resolution :
    Value.deserialize_enum_Switch2 (OsStr.valid "ON") = .ok Switch2.On
    ∧ Value.deserialize_enum_Switch2 (OsStr.valid "OFF") = .ok Switch2.Off
    ∧ Value.deserialize_enum_Switch2 (OsStr.valid "GIBBERISH")
        = .error (.Message "unknown variant `GIBBERISH`, expected `ON` or `OFF`")
    ∧ Value.deserialize_enum_Switch (OsStr.valid "ON") = .ok Switch.On
    ∧ Value.deserialize_enum_Switch (OsStr.valid "NEW_TYPE_VARIANT")
        = .error (.Message "invalid type: unit variant, expected newtype variant")
    ∧ Value.deserialize_enum_Switch (OsStr.valid "STRUCT_VARIANT")
        = .error (.Message "invalid type: unit variant, expected struct variant")
    ∧ resultIsUnsupportedType
        (Value.deserialize_enum_Switch (OsStr.valid "STRUCT_VARIANT")) = false :=
  ⟨rfl, rfl, rfl, rfl, rfl, rfl, rfl⟩

/-- C7: the Key adapter answers exactly the text, owned-string and
identifier requests (identifier extraction is the same operation as text
extraction), hands itself to a newtype wrapper, and rejects every other
shape request with `UnsupportedType` naming the shape. -/
theorem C7_key_dispatch :
    keyDeserializeShape SerdeShape.str = KeyOutcome.visitStr
    ∧ keyDeserializeShape SerdeShape.identifier = keyDeserializeShape SerdeShape.str
    ∧ (∀ k : Key, Key.deserialize_identifier k = Key.deserialize_str k)
    ∧ keyDeserializeShape SerdeShape.string = KeyOutcome.visitString
    ∧ keyDeserializeShape SerdeShape.newtype_struct = KeyOutcome.visitNewtypeSelf
    ∧ (∀ s : SerdeShape, s ≠ SerdeShape.str → s ≠ SerdeShape.string →
        s ≠ SerdeShape.identifier → s ≠ SerdeShape.newtype_struct →
        keyDeserializeShape s = KeyOutcome.unsupported (shapeName s)) := by
  refine ⟨rfl, rfl, fun k => rfl, rfl, rfl, ?_⟩
  intro s h1 h2 h3 h4
  cases s <;> first
    | rfl
    | exact absurd rfl h1
    | exact absurd rfl h2
    | exact absurd rfl h3
    | exact absurd rfl h4

/-- C7 witness: concrete rejected shapes on the Key adapter. -/
theorem C7_key_dispatch_witness :
    keyDeserializeShape SerdeShape.bool = KeyOutcome.unsupported "bool"
    ∧ keyDeserializeShape SerdeShape.u8 = KeyOutcome.unsupported "u8"
    ∧ keyDeserializeShape SerdeShape.map = KeyOutcome.unsupported "map"
    ∧ keyDeserializeShape SerdeShape.option = KeyOutcome.unsupported "option" :=
  ⟨C7_key_dispatch.2.2.2.2.2 SerdeShape.bool (by decide) (by decide) (by decide) (by decide),
   C7_key_dispatch.2.2.2.2.2 SerdeShape.u8 (by decide) (by decide) (by decide) (by decide),
   C7_key_dispatch.2.2.2.2.2 SerdeShape.map (by decide) (by decide) (by decide) (by decide),
   C7_key_dispatch.2.2.2.2.2 SerdeShape.option (by decide) (by decide) (by decide) (by decide)⟩

/-- C8 counterexample: an ignored/skip request on a value with non-Unicode
bytes does not succeed — it fails with `InvalidUnicode` — so the claim that
it succeeds unconditionally without inspecting content is false. -/
theorem C8_counterexample :
    Value.deserialize_ignored_any (OsStr.invalid [255])
      = .error (.InvalidUnicode (OsStr.invalid [255]))
    ∧ Value.deserialize_ignored_any (OsStr.invalid [255]) ≠ .ok () :=
  ⟨rfl, by decide⟩

/-- C8 (amended): an ignored/skip request succeeds for every value whose
bytes are valid Unicode, whatever the decoded content, and fails with
`InvalidUnicode` on every value whose bytes are not (the request is
forwarded through `deserialize_any`, which decodes first). -/
theorem C8_ignored_any :
    (∀ s : String, Value.deserialize_ignored_any (OsStr.valid s) = .ok ())
    ∧ (∀ b : List Nat, Value.deserialize_ignored_any (OsStr.invalid b)
        = .error (.InvalidUnicode (OsStr.invalid b))) :=
  ⟨fun s => rfl, fun b => rfl⟩

/-- Stripping a list prefix from itself followed by anything yields the
remainder. -/
theorem stripPrefixChars_append (p n : List Char) :
    stripPrefixChars p (p ++ n) = some n := by
  induction p with
  | nil => rfl
  | cons c cs ih => simp [stripPrefixChars, ih]

/-- `stripPrefixChars p s` succeeds with `t` exactly when `s` is `p`
followed by `t` — i.e. exactly when `s` starts with `p`. -/
theorem stripPrefixChars_some_iff (p : List Char) :
    ∀ s t : List Char, stripPrefixChars p s = some t ↔ s = p ++ t := by
  induction p with
  | nil =>
    intro s t
    simp [stripPrefixChars, eq_comm]
  | cons c cs ih =>
    intro s t
    cases s with
    | nil =>
      simp [stripPrefixChars]
    | cons d ds =>
      by_cases h : c = d
      · subst h
        simp [stripPrefixChars, ih]
      · simp only [stripPrefixChars, if_neg h, List.cons_append, List.cons.injEq]
        constructor
        · intro hh; exact Option.noConfusion hh
        · intro hh; exact absurd hh.1.symm h

/-- C9: the prefixed conversion keeps exactly the pairs whose (valid
Unicode) name starts with the prefix, strips the prefix from the name
before it reaches the engine, and silently excludes every non-matching
name; on the concrete environment `a=wrong`, `b=wrong`,
`prefix_a=lorem ipsum`, `prefix_b=128` with prefix `prefix_`, conversion
into `{ a: String, b: u8 }` yields `a = "lorem ipsum"`, `b = 128`. -/
theorem C9_prefixed_filtering :
    (∀ (pre name : String) (stripped : List Char) (v : OsStr),
        stripPrefixChars pre.data name.data = some stripped →
        from_env_filter pre [(OsStr.valid name, v)]
          = [(OsStr.valid ⟨stripped⟩, v)])
    ∧ (∀ (pre name : String) (v : OsStr),
        stripPrefixChars pre.data name.data = none →
        from_env_filter pre [(OsStr.valid name, v)] = [])
    ∧ (∀ (pre : String) (xs ys : List (OsStr × OsStr)),
        from_env_filter pre (xs ++ ys)
          = from_env_filter pre xs ++ from_env_filter pre ys)
    ∧ (∀ p s t : List Char, stripPrefixChars p s = some t ↔ s = p ++ t)
    ∧ from_env_prefixed_Test "prefix_" envExample = .ok ("lorem ipsum", 128) := by
  refine ⟨fun pre name stripped v h => ?_, fun pre name v h => ?_,
    fun pre xs ys => ?_, fun p s t => stripPrefixChars_some_iff p s t, by rfl⟩
  · simp [from_env_filter, prefFilterOne, OsStr.to_str, h]
  · simp [from_env_filter, prefFilterOne, OsStr.to_str, h]
  · simp [from_env_filter, List.filterMap_append]

/-- C9 witness: the filter at a concrete matching pair (kept and stripped)
and a concrete non-matching pair (silently dropped). -/
theorem C9_prefixed_filtering_witness :
    from_env_filter "prefix_" [(OsStr.valid "prefix_a", OsStr.valid "lorem ipsum")]
      = [(OsStr.valid "a", OsStr.valid "lorem ipsum")]
    ∧ from_env_filter "prefix_" [(OsStr.valid "a", OsStr.valid "wrong")] = [] :=
  ⟨C9_prefixed_filtering.1 "prefix_" "prefix_a" ['a']
      (OsStr.valid "lorem ipsum") (by rfl),
   C9_prefixed_filtering.2.1 "prefix_" "a" (OsStr.valid "wrong") (by rfl)⟩

/-- C10: in the prefixed conversion every pair whose name is not valid
Unicode is silently excluded before the prefix test — inserting such a pair
anywhere leaves the filtered list unchanged, so it can never contribute an
error through this entry point (the concrete prefixed example still
succeeds with it present) — whereas the unprefixed entry point passes
non-Unicode names through to the engine, where reading the key as a field
identifier fails with `InvalidUnicode`. -/
theorem C10_invalid_names_excluded :
    (∀ (pre : String) (xs ys : List (OsStr × OsStr)) (b : List Nat) (v : OsStr),
        from_env_filter pre (xs ++ (OsStr.invalid b, v) :: ys)
          = from_env_filter pre (xs ++ ys))
    ∧ from_iter_test [(OsStr.invalid [255], OsStr.valid "x")]
        = .error (.InvalidUnicode (OsStr.invalid [255]))
    ∧ from_env_prefixed_Test "prefix_"
        ((OsStr.invalid [255], OsStr.valid "x") :: envExample)
        = .ok ("lorem ipsum", 128) := by
  refine ⟨fun pre xs ys b v => ?_, by rfl, by rfl⟩
  have h : prefFilterOne pre (OsStr.invalid b, v) = none := rfl
  simp [from_env_filter, List.filterMap_append, List.filterMap_cons, h]
